import Mathlib

/-!
Verification of the fare-polling and deal-detection core of the
ryanair-dashboard program (src/index.js), as a shallow embedding.

JavaScript numbers are modelled by `JsNum`: NaN, the two infinities, and
finite values as integers (every amount, threshold and diff the claims and
the spec's scenarios speak about is a whole-euro value, and none of the
claimed properties — sign classification, threshold comparison, NaN and
Infinity propagation, truthiness — depends on fractional precision).  `undefined` operands are modelled with
`Option JsNum` plus the coercion `jsOfUndef` (arithmetic on `undefined`
yields NaN).  The polling cycle body (the promise chain of `fetch`,
src/index.js lines 369-477) becomes the pure transition function
`runCycle` on the persistent module state (`prevLowestOutboundFare`,
`prevLowestReturnFare`, and the `fares` accumulation arrays), returning
the observable outputs of one cycle (log lines, plot points, alert,
rescheduling) as a `CycleOutput` record.
-/

/-- A JavaScript number: NaN, +Infinity, -Infinity, or a finite value
(modelled as an integer). -/
inductive JsNum where
  | nan : JsNum
  | posInf : JsNum
  | negInf : JsNum
  | fin (q : ℤ) : JsNum
deriving DecidableEq, Repr

/-- JavaScript `isNaN`. -/
def jsIsNaN : JsNum → Bool
  | .nan => true
  | _ => false

/-- JavaScript `isFinite`. -/
def jsIsFinite : JsNum → Bool
  | .fin _ => true
  | _ => false

/-- An infinite (non-NaN, non-finite) JavaScript number. -/
def jsIsInfinite (a : JsNum) : Bool :=
  !jsIsFinite a && !jsIsNaN a

/-- JavaScript subtraction `a - b` with NaN/Infinity propagation. -/
def jsSub : JsNum → JsNum → JsNum
  | .nan, _ => .nan
  | _, .nan => .nan
  | .posInf, .posInf => .nan
  | .negInf, .negInf => .nan
  | .posInf, _ => .posInf
  | .negInf, _ => .negInf
  | .fin _, .posInf => .negInf
  | .fin _, .negInf => .posInf
  | .fin a, .fin b => .fin (a - b)

/-- JavaScript addition `a + b` with NaN/Infinity propagation. -/
def jsAdd : JsNum → JsNum → JsNum
  | .nan, _ => .nan
  | _, .nan => .nan
  | .posInf, .negInf => .nan
  | .negInf, .posInf => .nan
  | .posInf, _ => .posInf
  | _, .posInf => .posInf
  | .negInf, _ => .negInf
  | _, .negInf => .negInf
  | .fin a, .fin b => .fin (a + b)

/-- JavaScript `a < b` (false whenever an operand is NaN). -/
def jsLt : JsNum → JsNum → Bool
  | .nan, _ => false
  | _, .nan => false
  | .posInf, _ => false
  | _, .posInf => true
  | .negInf, .negInf => false
  | .negInf, _ => true
  | _, .negInf => false
  | .fin a, .fin b => decide (a < b)

/-- JavaScript `a <= b` (false whenever an operand is NaN). -/
def jsLe (a b : JsNum) : Bool :=
  !jsIsNaN a && !jsIsNaN b && (jsLt a b || a == b)

/-- JavaScript strict equality on numbers (false whenever an operand is NaN). -/
def jsEq (a b : JsNum) : Bool :=
  !jsIsNaN a && !jsIsNaN b && a == b

/-- JavaScript coercion of a possibly-`undefined` numeric variable, as it
behaves in arithmetic: `undefined` becomes NaN. -/
def jsOfUndef : Option JsNum → JsNum
  | none => .nan
  | some v => v

/-- JavaScript truthiness of a possibly-`undefined` number: `undefined`,
`NaN` and `0` are falsy, everything else is truthy. -/
def jsTruthy : Option JsNum → Bool
  | none => false
  | some .nan => false
  | some (.fin q) => decide (q ≠ 0)
  | some _ => true

/-- JavaScript `Math.min` of two numbers (NaN-propagating). -/
def jsMin2 (a b : JsNum) : JsNum :=
  if jsIsNaN a || jsIsNaN b then .nan
  else if jsLt a b then a else b

/-- JavaScript `Math.min(...l)`: `Infinity` on the empty list, otherwise the
NaN-propagating minimum. -/
def jsMinList (l : List JsNum) : JsNum :=
  l.foldl jsMin2 .posInf

/-- The configuration surface the polling core reads (src/index.js lines
49-57): the one-way flag and the two optional deal thresholds.  A threshold
is `none` when the CLI flag was not given (`undefined` in the source). -/
structure Config where
  oneWay : Bool
  individualDealPrice : Option JsNum
  totalDealPrice : Option JsNum
deriving DecidableEq, Repr

/-- The persistent module-level state of src/index.js: the baseline fares
`prevLowestOutboundFare` / `prevLowestReturnFare` (lines 24-25, `undefined`
until first assigned) and the `fares` accumulation arrays (lines 26-29). -/
structure FareState where
  prevLowestOutboundFare : Option JsNum
  prevLowestReturnFare : Option JsNum
  faresOutbound : List JsNum
  faresReturn : List JsNum
deriving DecidableEq, Repr

/-- The state at process start: both baselines `undefined`, both fare
arrays empty. -/
def initialState : FareState :=
  { prevLowestOutboundFare := none
    prevLowestReturnFare := none
    faresOutbound := []
    faresReturn := [] }

/-- One API response body, reduced to what the extraction code touches:
for each index i, `trips[i]` either carries the full path
`dates[0].flights[0].regularFare.fares[0].amount` down to an amount
(`some amount`), or some step of that path is missing and the property
access of src/index.js line 375/378 throws (`none`). -/
structure ResponseData where
  trips : List (Option JsNum)
deriving DecidableEq, Repr

/-- The amount at `data.trips[i].dates[0].flights[0].regularFare.fares[0].amount`,
or `none` when the access throws. -/
def tripAmount (data : ResponseData) (i : Nat) : Option JsNum :=
  (data.trips.get? i).bind id

/-- Outcome of the `rp(options)` call of src/index.js line 372: either the
promise rejects (network/HTTP failure) or it resolves with a parsed body. -/
inductive FetchOutcome where
  | transportError : FetchOutcome
  | response (data : ResponseData) : FetchOutcome
deriving DecidableEq, Repr

/-- The trend annotation attached to a logged fare, abstracting the chalk
strings of src/index.js lines 406-420: `""`, `(down €d)`, `(up €d)` or
`(no change)`. -/
inductive DiffTag where
  | empty : DiffTag
  | down : DiffTag
  | up : DiffTag
  | noChange : DiffTag
deriving DecidableEq, Repr

/-- The outbound diff-string branch of src/index.js lines 406-412
(only ever reached under the joint not-NaN guard of line 399). -/
def outboundDiffTag (d : JsNum) : DiffTag :=
  if jsLt (.fin 0) d then .down
  else if jsLt d (.fin 0) then .up
  else if jsEq d (.fin 0) then .noChange
  else .empty

/-- The return diff-string branch of src/index.js lines 414-420: the
favorable branch additionally requires round-trip mode (`&& !oneWay`). -/
def returnDiffTag (oneWay : Bool) (d : JsNum) : DiffTag :=
  if jsLt (.fin 0) d && !oneWay then .down
  else if jsLt d (.fin 0) then .up
  else if jsEq d (.fin 0) then .noChange
  else .empty

/-- The deal condition of src/index.js lines 430-434, with JavaScript
truthiness guards on the two optional thresholds:
`(totalDealPrice && out + ret <= totalDealPrice) ||
 (individualDealPrice && (out <= individualDealPrice || ret <= individualDealPrice))`. -/
def awesomeDealIsAwesome (totalDealPrice individualDealPrice : Option JsNum)
    (lowestOutboundFare lowestReturnFare : JsNum) : Bool :=
  (jsTruthy totalDealPrice &&
    jsLe (jsAdd lowestOutboundFare lowestReturnFare) (jsOfUndef totalDealPrice)) ||
  (jsTruthy individualDealPrice &&
    (jsLe lowestOutboundFare (jsOfUndef individualDealPrice) ||
     jsLe lowestReturnFare (jsOfUndef individualDealPrice)))

/-- The deal condition as the specification states it (§4.4): condition A —
the total threshold is configured and the combined fare is at or below it;
condition B — the individual threshold is configured and either leg is at or
below it; the alert fires if A or B holds.  Written from the spec's words,
to be compared with the source's `awesomeDealIsAwesome`. -/
def specDealCondition (totalDealPrice individualDealPrice : Option JsNum)
    (lowestOutbound lowestReturn : JsNum) : Bool :=
  (jsTruthy totalDealPrice &&
    jsLe (jsAdd lowestOutbound lowestReturn) (jsOfUndef totalDealPrice)) ||
  (jsTruthy individualDealPrice &&
    (jsLe lowestOutbound (jsOfUndef individualDealPrice) ||
     jsLe lowestReturn (jsOfUndef individualDealPrice)))

/-- The guard of src/index.js line 399: the diff strings (and the validity
check) are only computed when neither diff is NaN. -/
def diffsComputed (outboundFareDiff returnFareDiff : JsNum) : Bool :=
  !jsIsNaN outboundFareDiff && !jsIsNaN returnFareDiff

/-- The value of the `faresAreValid` flag after src/index.js lines 386 and
399-404: initialized `true`, set to `false` exactly when the diff strings
are computed (line 399) and one of the diffs is not finite (line 402). -/
def faresValidCheck (outboundFareDiff returnFareDiff : JsNum) : Bool :=
  !(diffsComputed outboundFareDiff returnFareDiff &&
    (!jsIsFinite outboundFareDiff || !jsIsFinite returnFareDiff))

/-- The cycle's lowest outbound fare, `Math.min(...fares.outbound)`
(src/index.js line 383). -/
def lowestOutOf (st : FareState) : JsNum :=
  jsMinList st.faresOutbound

/-- The cycle's lowest return fare, `oneWay ? 0 : Math.min(...fares.return)`
(src/index.js line 384). -/
def lowestRetOf (cfg : Config) (st : FareState) : JsNum :=
  if cfg.oneWay then .fin 0 else jsMinList st.faresReturn

/-- The outbound fare diff, `prevLowestOutboundFare - lowestOutboundFare`
(src/index.js line 393). -/
def outDiffOf (st : FareState) : JsNum :=
  jsSub (jsOfUndef st.prevLowestOutboundFare) (lowestOutOf st)

/-- The return fare diff, `oneWay ? 0 : prevLowestReturnFare - lowestReturnFare`
(src/index.js line 394). -/
def retDiffOf (cfg : Config) (st : FareState) : JsNum :=
  if cfg.oneWay then .fin 0
  else jsSub (jsOfUndef st.prevLowestReturnFare) (lowestRetOf cfg st)

/-- The externally observable outcome of one polling cycle.  `completed`
records that the final `.then` handler (src/index.js lines 382-471) ran,
i.e. fetch and extraction did not reject; `errorLogged` records the `.catch`
log line (lines 472-476); `scheduledNext` records whether
`setTimeout(fetch, interval * TIME_MIN)` (line 470) was reached;
`loggedOutbound`/`loggedReturn` are the fares printed by the per-cycle log
lines (lines 450-460, `none` when no such line is printed for that leg) and
`plottedOutbound`/`plottedReturn` the values passed to `dashboard.plot`
(lines 453-464). -/
structure CycleOutput where
  errorLogged : Bool
  completed : Bool
  faresAreValid : Bool
  lowestOutboundFare : Option JsNum
  lowestReturnFare : Option JsNum
  outboundFareDiff : JsNum
  returnFareDiff : JsNum
  outboundTag : DiffTag
  returnTag : DiffTag
  alertFired : Bool
  loggedOutbound : Option JsNum
  loggedReturn : Option JsNum
  plottedOutbound : Option JsNum
  plottedReturn : Option JsNum
  scheduledNext : Bool
deriving DecidableEq, Repr

/-- The outcome of a cycle that ended in the `.catch` handler (src/index.js
lines 472-476): the error is logged and nothing else happens — in
particular `setTimeout` on line 470 was never reached. -/
def errOutput : CycleOutput :=
  { errorLogged := true
    completed := false
    faresAreValid := false
    lowestOutboundFare := none
    lowestReturnFare := none
    outboundFareDiff := .nan
    returnFareDiff := .nan
    outboundTag := .empty
    returnTag := .empty
    alertFired := false
    loggedOutbound := none
    loggedReturn := none
    plottedOutbound := none
    plottedReturn := none
    scheduledNext := false }

/-- The extraction handler of src/index.js lines 374-381: read the outbound
amount and push it onto `fares.outbound`; in round-trip mode also read the
return amount and push it onto `fares.return`.  A missing path throws
(second component `false`), leaving any pushes already performed in place. -/
def pushFares (cfg : Config) (st : FareState) (data : ResponseData) :
    FareState × Bool :=
  match tripAmount data 0 with
  | none => (st, false)
  | some outPrice =>
    let st1 := { st with faresOutbound := st.faresOutbound ++ [outPrice] }
    if cfg.oneWay then (st1, true)
    else
      match tripAmount data 1 with
      | none => (st1, false)
      | some inPrice =>
        ({ st1 with faresReturn := st1.faresReturn ++ [inPrice] }, true)

/-- The reduce/classify/evaluate/report handler of src/index.js lines
382-471: take the per-cycle minima, clear the fare arrays, compute the
diffs against the previous baselines, classify them under the joint
not-NaN guard of line 399 (which also flags the cycle invalid when a diff
is infinite, lines 402-404), and in the valid case (lines 423-467) update
the baselines, evaluate the deal, and log/plot the fares.  In every case
the dashboard is re-rendered and the next cycle scheduled (lines 469-470). -/
def reduceAndReport (cfg : Config) (st : FareState) : FareState × CycleOutput :=
  let lowestOutboundFare := jsMinList st.faresOutbound
  let lowestReturnFare := if cfg.oneWay then JsNum.fin 0 else jsMinList st.faresReturn
  let st1 : FareState := { st with faresOutbound := [], faresReturn := [] }
  let outboundFareDiff := jsSub (jsOfUndef st1.prevLowestOutboundFare) lowestOutboundFare
  let returnFareDiff :=
    if cfg.oneWay then JsNum.fin 0
    else jsSub (jsOfUndef st1.prevLowestReturnFare) lowestReturnFare
  let faresAreValid := faresValidCheck outboundFareDiff returnFareDiff
  let outboundTag :=
    if diffsComputed outboundFareDiff returnFareDiff then outboundDiffTag outboundFareDiff
    else DiffTag.empty
  let returnTag :=
    if diffsComputed outboundFareDiff returnFareDiff then returnDiffTag cfg.oneWay returnFareDiff
    else DiffTag.empty
  if faresAreValid then
    ({ st1 with
        prevLowestOutboundFare := some lowestOutboundFare
        prevLowestReturnFare := some lowestReturnFare },
     { errorLogged := false
       completed := true
       faresAreValid := true
       lowestOutboundFare := some lowestOutboundFare
       lowestReturnFare := some lowestReturnFare
       outboundFareDiff := outboundFareDiff
       returnFareDiff := returnFareDiff
       outboundTag := outboundTag
       returnTag := returnTag
       alertFired := awesomeDealIsAwesome cfg.totalDealPrice cfg.individualDealPrice
                       lowestOutboundFare lowestReturnFare
       loggedOutbound := some lowestOutboundFare
       loggedReturn := if cfg.oneWay then none else some lowestReturnFare
       plottedOutbound := some lowestOutboundFare
       plottedReturn := if cfg.oneWay then none else some lowestReturnFare
       scheduledNext := true })
  else
    (st1,
     { errorLogged := false
       completed := true
       faresAreValid := false
       lowestOutboundFare := some lowestOutboundFare
       lowestReturnFare := some lowestReturnFare
       outboundFareDiff := outboundFareDiff
       returnFareDiff := returnFareDiff
       outboundTag := outboundTag
       returnTag := returnTag
       alertFired := false
       loggedOutbound := none
       loggedReturn := none
       plottedOutbound := none
       plottedReturn := none
       scheduledNext := true })

/-- One full polling cycle (the promise chain of `fetch`, src/index.js
lines 369-477), as a transition on the persistent state: a transport
rejection or an extraction throw lands in `.catch` (error logged, no
reschedule); otherwise the reduce/classify/evaluate/report handler runs. -/
def runCycle (cfg : Config) (st : FareState) (f : FetchOutcome) :
    FareState × CycleOutput :=
  match f with
  | .transportError => (st, errOutput)
  | .response data =>
    match pushFares cfg st data with
    | (st1, false) => (st1, errOutput)
    | (st1, true) => reduceAndReport cfg st1

theorem pushFares_prev (cfg : Config) (st : FareState) (data : ResponseData) :
    (pushFares cfg st data).1.prevLowestOutboundFare = st.prevLowestOutboundFare ∧
    (pushFares cfg st data).1.prevLowestReturnFare = st.prevLowestReturnFare := by
  rcases h0 : tripAmount data 0 with _ | outPrice <;>
    rcases h1 : tripAmount data 1 with _ | inPrice <;>
      rcases how : cfg.oneWay <;>
        simp [pushFares, h0, h1, how]

theorem runCycle_completed_eq (cfg : Config) (st : FareState) (f : FetchOutcome)
    (h : (runCycle cfg st f).2.completed = true) :
    ∃ st1 : FareState,
      runCycle cfg st f = reduceAndReport cfg st1 ∧
      st1.prevLowestOutboundFare = st.prevLowestOutboundFare ∧
      st1.prevLowestReturnFare = st.prevLowestReturnFare := by
  cases f with
  | transportError => exact absurd h (by simp [runCycle, errOutput])
  | response data =>
    rcases hp : pushFares cfg st data with ⟨st1, ok⟩
    cases ok with
    | false => exact absurd h (by simp [runCycle, hp, errOutput])
    | true =>
      have h1 := (pushFares_prev cfg st data).1
      have h2 := (pushFares_prev cfg st data).2
      rw [hp] at h1 h2
      exact ⟨st1, by simp [runCycle, hp], h1, h2⟩

theorem reduceAndReport_completed (cfg : Config) (st : FareState) :
    (reduceAndReport cfg st).2.completed = true ∧
    (reduceAndReport cfg st).2.scheduledNext = true := by
  rcases how : cfg.oneWay <;> simp [reduceAndReport, how] <;> split <;> simp_all

theorem reduceAndReport_lowest (cfg : Config) (st : FareState) :
    (reduceAndReport cfg st).2.lowestOutboundFare = some (lowestOutOf st) ∧
    (reduceAndReport cfg st).2.lowestReturnFare = some (lowestRetOf cfg st) := by
  rcases how : cfg.oneWay <;>
    simp [reduceAndReport, how, lowestOutOf, lowestRetOf] <;> split <;> simp_all

theorem reduceAndReport_diffs (cfg : Config) (st : FareState) :
    (reduceAndReport cfg st).2.outboundFareDiff = outDiffOf st ∧
    (reduceAndReport cfg st).2.returnFareDiff = retDiffOf cfg st := by
  rcases how : cfg.oneWay <;>
    simp [reduceAndReport, how, lowestOutOf, lowestRetOf, outDiffOf, retDiffOf] <;>
      split <;> simp_all

theorem reduceAndReport_valid (cfg : Config) (st : FareState) :
    (reduceAndReport cfg st).2.faresAreValid =
      faresValidCheck (outDiffOf st) (retDiffOf cfg st) := by
  rcases how : cfg.oneWay <;>
    simp [reduceAndReport, how, lowestOutOf, lowestRetOf, outDiffOf, retDiffOf] <;>
      split <;> simp_all

theorem reduceAndReport_tags (cfg : Config) (st : FareState) :
    (reduceAndReport cfg st).2.outboundTag =
      (if diffsComputed (outDiffOf st) (retDiffOf cfg st)
       then outboundDiffTag (outDiffOf st) else DiffTag.empty) ∧
    (reduceAndReport cfg st).2.returnTag =
      (if diffsComputed (outDiffOf st) (retDiffOf cfg st)
       then returnDiffTag cfg.oneWay (retDiffOf cfg st) else DiffTag.empty) := by
  rcases how : cfg.oneWay <;>
    simp [reduceAndReport, how, lowestOutOf, lowestRetOf, outDiffOf, retDiffOf] <;>
      split <;> simp_all

theorem reduceAndReport_prev (cfg : Config) (st : FareState) :
    (reduceAndReport cfg st).1.prevLowestOutboundFare =
      (if faresValidCheck (outDiffOf st) (retDiffOf cfg st)
       then some (lowestOutOf st) else st.prevLowestOutboundFare) ∧
    (reduceAndReport cfg st).1.prevLowestReturnFare =
      (if faresValidCheck (outDiffOf st) (retDiffOf cfg st)
       then some (lowestRetOf cfg st) else st.prevLowestReturnFare) := by
  rcases how : cfg.oneWay <;>
    simp [reduceAndReport, how, lowestOutOf, lowestRetOf, outDiffOf, retDiffOf] <;>
      split <;> simp_all

theorem reduceAndReport_alertFired (cfg : Config) (st : FareState) :
    (reduceAndReport cfg st).2.alertFired =
      (faresValidCheck (outDiffOf st) (retDiffOf cfg st) &&
       awesomeDealIsAwesome cfg.totalDealPrice cfg.individualDealPrice
         (lowestOutOf st) (lowestRetOf cfg st)) := by
  rcases how : cfg.oneWay <;>
    simp [reduceAndReport, how, lowestOutOf, lowestRetOf, outDiffOf, retDiffOf] <;>
      split <;> simp_all

theorem reduceAndReport_report (cfg : Config) (st : FareState) :
    (reduceAndReport cfg st).2.loggedOutbound =
      (if faresValidCheck (outDiffOf st) (retDiffOf cfg st)
       then some (lowestOutOf st) else none) ∧
    (reduceAndReport cfg st).2.loggedReturn =
      (if faresValidCheck (outDiffOf st) (retDiffOf cfg st) && !cfg.oneWay
       then some (lowestRetOf cfg st) else none) ∧
    (reduceAndReport cfg st).2.plottedOutbound =
      (if faresValidCheck (outDiffOf st) (retDiffOf cfg st)
       then some (lowestOutOf st) else none) ∧
    (reduceAndReport cfg st).2.plottedReturn =
      (if faresValidCheck (outDiffOf st) (retDiffOf cfg st) && !cfg.oneWay
       then some (lowestRetOf cfg st) else none) := by
  rcases how : cfg.oneWay <;>
    simp [reduceAndReport, how, lowestOutOf, lowestRetOf, outDiffOf, retDiffOf] <;>
      split <;> simp_all

theorem reduceAndReport_alert (cfg : Config) (st : FareState) :
    (reduceAndReport cfg st).2.alertFired =
      ((reduceAndReport cfg st).2.faresAreValid &&
       specDealCondition cfg.totalDealPrice cfg.individualDealPrice
         (jsOfUndef (reduceAndReport cfg st).2.lowestOutboundFare)
         (jsOfUndef (reduceAndReport cfg st).2.lowestReturnFare)) := by
  rcases how : cfg.oneWay <;>
    simp [reduceAndReport, how] <;>
    split <;>
    simp [awesomeDealIsAwesome, specDealCondition, jsOfUndef]

theorem jsSub_infinite (a b : JsNum) (hb : jsIsInfinite b = true)
    (h : jsIsNaN (jsSub a b) = false) : jsIsFinite (jsSub a b) = false := by
  cases a <;> cases b <;> simp_all [jsSub, jsIsNaN, jsIsFinite, jsIsInfinite]

theorem jsTruthy_of_pos (p : JsNum) (h : jsLt (.fin 0) p = true) :
    jsTruthy (some p) = true := by
  cases p with
  | nan => simp [jsLt] at h
  | posInf => simp [jsTruthy]
  | negInf => simp [jsLt] at h
  | fin q =>
    simp [jsLt] at h
    simp [jsTruthy]
    exact ne_of_gt h

theorem jsLe_zero_of_pos (p : JsNum) (h : jsLt (.fin 0) p = true) :
    jsLe (.fin 0) p = true := by
  cases p <;> simp_all [jsLt, jsLe, jsIsNaN]

theorem runCycle_invalid_prev (cfg : Config) (st : FareState) (f : FetchOutcome)
    (h : (runCycle cfg st f).2.faresAreValid = false) :
    (runCycle cfg st f).1.prevLowestOutboundFare = st.prevLowestOutboundFare ∧
    (runCycle cfg st f).1.prevLowestReturnFare = st.prevLowestReturnFare := by
  cases f with
  | transportError => exact ⟨rfl, rfl⟩
  | response data =>
    rcases hp : pushFares cfg st data with ⟨st1, ok⟩
    have hprev := pushFares_prev cfg st data
    rw [hp] at hprev
    cases ok with
    | false =>
      have hred : runCycle cfg st (.response data) = (st1, errOutput) := by
        simp [runCycle, hp]
      rw [hred]
      exact hprev
    | true =>
      have hred : runCycle cfg st (.response data) = reduceAndReport cfg st1 := by
        simp [runCycle, hp]
      rw [hred] at h ⊢
      rw [reduceAndReport_valid] at h
      have := reduceAndReport_prev cfg st1
      rw [h] at this
      simp at this
      exact ⟨this.1.trans hprev.1, this.2.trans hprev.2⟩

theorem runCycle_prev_if (cfg : Config) (st : FareState) (f : FetchOutcome) :
    (runCycle cfg st f).1.prevLowestOutboundFare =
      (if (runCycle cfg st f).2.faresAreValid
       then (runCycle cfg st f).2.lowestOutboundFare else st.prevLowestOutboundFare) ∧
    (runCycle cfg st f).1.prevLowestReturnFare =
      (if (runCycle cfg st f).2.faresAreValid
       then (runCycle cfg st f).2.lowestReturnFare else st.prevLowestReturnFare) := by
  cases f with
  | transportError => simp [runCycle, errOutput]
  | response data =>
    rcases hp : pushFares cfg st data with ⟨st1, ok⟩
    have hprev := pushFares_prev cfg st data
    rw [hp] at hprev
    cases ok with
    | false =>
      simp only [runCycle, hp, errOutput]
      simp
      exact ⟨hprev.1, hprev.2⟩
    | true =>
      have hred : runCycle cfg st (.response data) = reduceAndReport cfg st1 := by
        simp [runCycle, hp]
      rw [hred]
      rw [(reduceAndReport_prev cfg st1).1, (reduceAndReport_prev cfg st1).2,
          reduceAndReport_valid, (reduceAndReport_lowest cfg st1).1,
          (reduceAndReport_lowest cfg st1).2, hprev.1, hprev.2]
      exact ⟨rfl, rfl⟩

theorem runCycle_valid_completed (cfg : Config) (st : FareState) (f : FetchOutcome)
    (h : (runCycle cfg st f).2.faresAreValid = true) :
    (runCycle cfg st f).2.completed = true := by
  cases f with
  | transportError => exact absurd h (by simp [runCycle, errOutput])
  | response data =>
    rcases hp : pushFares cfg st data with ⟨st1, ok⟩
    cases ok with
    | false => exact absurd h (by simp [runCycle, hp, errOutput])
    | true =>
      have hred : runCycle cfg st (.response data) = reduceAndReport cfg st1 := by
        simp [runCycle, hp]
      rw [hred]
      exact (reduceAndReport_completed cfg st1).1

/-- C4: in every cycle, the alert fires exactly when the cycle is valid and
the deal condition of the spec holds — `totalDealPrice` configured (truthy)
with combined fare at or below it, or `individualDealPrice` configured
(truthy) with either leg at or below it; in particular the alert never
fires in an invalid (or failed) cycle. -/
theorem c4_alert_iff_deal_condition (cfg : Config) (st : FareState) (f : FetchOutcome) :
    (runCycle cfg st f).2.alertFired =
      ((runCycle cfg st f).2.faresAreValid &&
       specDealCondition cfg.totalDealPrice cfg.individualDealPrice
         (jsOfUndef (runCycle cfg st f).2.lowestOutboundFare)
         (jsOfUndef (runCycle cfg st f).2.lowestReturnFare)) := by
  cases f with
  | transportError => simp [runCycle, errOutput]
  | response data =>
    rcases hp : pushFares cfg st data with ⟨st1, ok⟩
    cases ok with
    | false => simp [runCycle, hp, errOutput]
    | true => simpa [runCycle, hp] using reduceAndReport_alert cfg st1

/-- C10: a deal threshold configured as 0 is indistinguishable from an
unconfigured one — the truthiness guards of `awesomeDealIsAwesome` make a
zero threshold falsy, so it can never cause the alert to fire, even when
the corresponding fares are 0. -/
theorem c10_zero_threshold_behaves_as_unconfigured :
    (∀ indiv : Option JsNum, ∀ lo lr : JsNum,
        awesomeDealIsAwesome (some (JsNum.fin 0)) indiv lo lr =
        awesomeDealIsAwesome none indiv lo lr) ∧
    (∀ total : Option JsNum, ∀ lo lr : JsNum,
        awesomeDealIsAwesome total (some (JsNum.fin 0)) lo lr =
        awesomeDealIsAwesome total none lo lr) ∧
    (∀ w : Bool, ∀ st : FareState, ∀ f : FetchOutcome,
        (runCycle { oneWay := w, individualDealPrice := some (JsNum.fin 0),
                    totalDealPrice := some (JsNum.fin 0) } st f).2.alertFired = false) ∧
    awesomeDealIsAwesome (some (JsNum.fin 0)) (some (JsNum.fin 0))
      (JsNum.fin 0) (JsNum.fin 0) = false := by
  refine ⟨?_, ?_, ?_, ?_⟩
  · intro indiv lo lr
    simp [awesomeDealIsAwesome, jsTruthy]
  · intro total lo lr
    simp [awesomeDealIsAwesome, jsTruthy]
  · intro w st f
    cases f with
    | transportError => simp [runCycle, errOutput]
    | response data =>
      rcases hp : pushFares { oneWay := w, individualDealPrice := some (JsNum.fin 0),
                              totalDealPrice := some (JsNum.fin 0) } st data with ⟨st1, ok⟩
      cases ok with
      | false => simp [runCycle, hp, errOutput]
      | true =>
        simp only [runCycle, hp]
        simp [reduceAndReport_alertFired, awesomeDealIsAwesome, jsTruthy]
  · simp [awesomeDealIsAwesome, jsTruthy]

/-- C2 counterexample: a concrete completed-but-invalid cycle (baseline
50/40, outbound scrape returns Infinity) in which nothing at all is logged
or plotted — refuting the claim that the current lowest fares are still
logged and plotted in an invalid cycle. -/
theorem c2_counterexample_invalid_cycle_logs_nothing :
    (runCycle ⟨false, none, some (JsNum.fin 1000)⟩
      { prevLowestOutboundFare := some (JsNum.fin 50)
        prevLowestReturnFare := some (JsNum.fin 40)
        faresOutbound := [], faresReturn := [] }
      (FetchOutcome.response ⟨[some JsNum.posInf, some (JsNum.fin 40)]⟩)).2.completed
      = true ∧
    (runCycle ⟨false, none, some (JsNum.fin 1000)⟩
      { prevLowestOutboundFare := some (JsNum.fin 50)
        prevLowestReturnFare := some (JsNum.fin 40)
        faresOutbound := [], faresReturn := [] }
      (FetchOutcome.response ⟨[some JsNum.posInf, some (JsNum.fin 40)]⟩)).2.faresAreValid
      = false ∧
    (runCycle ⟨false, none, some (JsNum.fin 1000)⟩
      { prevLowestOutboundFare := some (JsNum.fin 50)
        prevLowestReturnFare := some (JsNum.fin 40)
        faresOutbound := [], faresReturn := [] }
      (FetchOutcome.response ⟨[some JsNum.posInf, some (JsNum.fin 40)]⟩)).2.loggedOutbound
      = none ∧
    (runCycle ⟨false, none, some (JsNum.fin 1000)⟩
      { prevLowestOutboundFare := some (JsNum.fin 50)
        prevLowestReturnFare := some (JsNum.fin 40)
        faresOutbound := [], faresReturn := [] }
      (FetchOutcome.response ⟨[some JsNum.posInf, some (JsNum.fin 40)]⟩)).2.loggedReturn
      = none ∧
    (runCycle ⟨false, none, some (JsNum.fin 1000)⟩
      { prevLowestOutboundFare := some (JsNum.fin 50)
        prevLowestReturnFare := some (JsNum.fin 40)
        faresOutbound := [], faresReturn := [] }
      (FetchOutcome.response ⟨[some JsNum.posInf, some (JsNum.fin 40)]⟩)).2.plottedOutbound
      = none ∧
    (runCycle ⟨false, none, some (JsNum.fin 1000)⟩
      { prevLowestOutboundFare := some (JsNum.fin 50)
        prevLowestReturnFare := some (JsNum.fin 40)
        faresOutbound := [], faresReturn := [] }
      (FetchOutcome.response ⟨[some JsNum.posInf, some (JsNum.fin 40)]⟩)).2.plottedReturn
      = none := by
  decide

/-- C2 (amended): in every completed cycle whose computed fare diff is
non-finite (an invalid cycle), alert evaluation and the baseline update are
skipped, and the current lowest fares are NOT logged or plotted either (the
entire reporting block sits inside the validity branch); the dashboard is
still re-rendered and the next cycle is still scheduled. -/
theorem c2_invalid_cycle_skips_all_reporting (cfg : Config) (st : FareState)
    (f : FetchOutcome)
    (h1 : (runCycle cfg st f).2.completed = true)
    (h2 : (runCycle cfg st f).2.faresAreValid = false) :
    (runCycle cfg st f).2.loggedOutbound = none ∧
    (runCycle cfg st f).2.loggedReturn = none ∧
    (runCycle cfg st f).2.plottedOutbound = none ∧
    (runCycle cfg st f).2.plottedReturn = none ∧
    (runCycle cfg st f).2.alertFired = false ∧
    (runCycle cfg st f).1.prevLowestOutboundFare = st.prevLowestOutboundFare ∧
    (runCycle cfg st f).1.prevLowestReturnFare = st.prevLowestReturnFare ∧
    (runCycle cfg st f).2.scheduledNext = true := by
  obtain ⟨st1, heq, e1, e2⟩ := runCycle_completed_eq cfg st f h1
  rw [heq] at h2 ⊢
  rw [reduceAndReport_valid] at h2
  have hrep := reduceAndReport_report cfg st1
  have halert := reduceAndReport_alertFired cfg st1
  have hprev := reduceAndReport_prev cfg st1
  rw [h2] at hrep halert hprev
  simp only [Bool.false_and, if_false, Bool.false_eq_true, ite_false] at hrep halert hprev
  exact ⟨hrep.1, hrep.2.1, hrep.2.2.1, hrep.2.2.2, halert,
    hprev.1.trans e1, hprev.2.trans e2, (reduceAndReport_completed cfg st1).2⟩

/-- C2 witness: the amended statement instantiated at the counterexample
cycle. -/
theorem c2_amended_witness :
    (runCycle ⟨false, none, some (JsNum.fin 1000)⟩
      { prevLowestOutboundFare := some (JsNum.fin 50)
        prevLowestReturnFare := some (JsNum.fin 40)
        faresOutbound := [], faresReturn := [] }
      (FetchOutcome.response ⟨[some JsNum.posInf, some (JsNum.fin 40)]⟩)).2.alertFired
      = false ∧
    (runCycle ⟨false, none, some (JsNum.fin 1000)⟩
      { prevLowestOutboundFare := some (JsNum.fin 50)
        prevLowestReturnFare := some (JsNum.fin 40)
        faresOutbound := [], faresReturn := [] }
      (FetchOutcome.response ⟨[some JsNum.posInf, some (JsNum.fin 40)]⟩)).1.prevLowestOutboundFare
      = some (JsNum.fin 50) ∧
    (runCycle ⟨false, none, some (JsNum.fin 1000)⟩
      { prevLowestOutboundFare := some (JsNum.fin 50)
        prevLowestReturnFare := some (JsNum.fin 40)
        faresOutbound := [], faresReturn := [] }
      (FetchOutcome.response ⟨[some JsNum.posInf, some (JsNum.fin 40)]⟩)).2.scheduledNext
      = true :=
  ⟨(c2_invalid_cycle_skips_all_reporting ⟨false, none, some (JsNum.fin 1000)⟩
      { prevLowestOutboundFare := some (JsNum.fin 50)
        prevLowestReturnFare := some (JsNum.fin 40)
        faresOutbound := [], faresReturn := [] }
      (FetchOutcome.response ⟨[some JsNum.posInf, some (JsNum.fin 40)]⟩)
      (by decide) (by decide)).2.2.2.2.1,
   (c2_invalid_cycle_skips_all_reporting ⟨false, none, some (JsNum.fin 1000)⟩
      { prevLowestOutboundFare := some (JsNum.fin 50)
        prevLowestReturnFare := some (JsNum.fin 40)
        faresOutbound := [], faresReturn := [] }
      (FetchOutcome.response ⟨[some JsNum.posInf, some (JsNum.fin 40)]⟩)
      (by decide) (by decide)).2.2.2.2.2.1,
   (c2_invalid_cycle_skips_all_reporting ⟨false, none, some (JsNum.fin 1000)⟩
      { prevLowestOutboundFare := some (JsNum.fin 50)
        prevLowestReturnFare := some (JsNum.fin 40)
        faresOutbound := [], faresReturn := [] }
      (FetchOutcome.response ⟨[some JsNum.posInf, some (JsNum.fin 40)]⟩)
      (by decide) (by decide)).2.2.2.2.2.2.2⟩

/-- C3: the baselines are assigned only at the end of a valid cycle — any
cycle with `faresAreValid = false` (which covers every failed fetch as
well) leaves both untouched, and a subsequent completed cycle therefore
computes its diffs against the last valid baseline; moreover that
subsequent cycle updates the baselines exactly when it is itself valid. -/
theorem c3_baseline_updated_only_when_valid (cfg : Config) (st : FareState)
    (f1 f2 : FetchOutcome)
    (h1 : (runCycle cfg st f1).2.faresAreValid = false)
    (h2 : (runCycle cfg (runCycle cfg st f1).1 f2).2.completed = true) :
    (runCycle cfg st f1).1.prevLowestOutboundFare = st.prevLowestOutboundFare ∧
    (runCycle cfg st f1).1.prevLowestReturnFare = st.prevLowestReturnFare ∧
    (runCycle cfg (runCycle cfg st f1).1 f2).2.outboundFareDiff =
      jsSub (jsOfUndef st.prevLowestOutboundFare)
        (jsOfUndef (runCycle cfg (runCycle cfg st f1).1 f2).2.lowestOutboundFare) ∧
    (runCycle cfg (runCycle cfg st f1).1 f2).2.returnFareDiff =
      (if cfg.oneWay then JsNum.fin 0
       else jsSub (jsOfUndef st.prevLowestReturnFare)
         (jsOfUndef (runCycle cfg (runCycle cfg st f1).1 f2).2.lowestReturnFare)) ∧
    (runCycle cfg (runCycle cfg st f1).1 f2).1.prevLowestOutboundFare =
      (if (runCycle cfg (runCycle cfg st f1).1 f2).2.faresAreValid
       then (runCycle cfg (runCycle cfg st f1).1 f2).2.lowestOutboundFare
       else st.prevLowestOutboundFare) ∧
    (runCycle cfg (runCycle cfg st f1).1 f2).1.prevLowestReturnFare =
      (if (runCycle cfg (runCycle cfg st f1).1 f2).2.faresAreValid
       then (runCycle cfg (runCycle cfg st f1).1 f2).2.lowestReturnFare
       else st.prevLowestReturnFare) := by
  obtain ⟨hA, hB⟩ := runCycle_invalid_prev cfg st f1 h1
  obtain ⟨st2, heq, e1, e2⟩ := runCycle_completed_eq cfg (runCycle cfg st f1).1 f2 h2
  refine ⟨hA, hB, ?_, ?_, ?_, ?_⟩
  · rw [heq, (reduceAndReport_diffs cfg st2).1, (reduceAndReport_lowest cfg st2).1]
    simp [outDiffOf, jsOfUndef, e1.trans hA]
  · rw [heq, (reduceAndReport_diffs cfg st2).2, (reduceAndReport_lowest cfg st2).2]
    rcases how : cfg.oneWay <;>
      simp [retDiffOf, lowestRetOf, how, jsOfUndef, e2.trans hB]
  · rw [(runCycle_prev_if cfg (runCycle cfg st f1).1 f2).1, hA]
  · rw [(runCycle_prev_if cfg (runCycle cfg st f1).1 f2).2, hB]

/-- C3 witness: an invalid cycle (outbound scrape returns Infinity against
baseline 50/40) followed by a valid cycle; the baseline survives the
invalid cycle unchanged. -/
theorem c3_witness :
    (runCycle ⟨false, none, none⟩
      { prevLowestOutboundFare := some (JsNum.fin 50)
        prevLowestReturnFare := some (JsNum.fin 40)
        faresOutbound := [], faresReturn := [] }
      (FetchOutcome.response ⟨[some JsNum.posInf, some (JsNum.fin 40)]⟩)).1.prevLowestOutboundFare
      = some (JsNum.fin 50) ∧
    (runCycle ⟨false, none, none⟩
      { prevLowestOutboundFare := some (JsNum.fin 50)
        prevLowestReturnFare := some (JsNum.fin 40)
        faresOutbound := [], faresReturn := [] }
      (FetchOutcome.response ⟨[some JsNum.posInf, some (JsNum.fin 40)]⟩)).1.prevLowestReturnFare
      = some (JsNum.fin 40) :=
  ⟨(c3_baseline_updated_only_when_valid ⟨false, none, none⟩
      { prevLowestOutboundFare := some (JsNum.fin 50)
        prevLowestReturnFare := some (JsNum.fin 40)
        faresOutbound := [], faresReturn := [] }
      (FetchOutcome.response ⟨[some JsNum.posInf, some (JsNum.fin 40)]⟩)
      (FetchOutcome.response ⟨[some (JsNum.fin 45), some (JsNum.fin 38)]⟩)
      (by decide) (by decide)).1,
   (c3_baseline_updated_only_when_valid ⟨false, none, none⟩
      { prevLowestOutboundFare := some (JsNum.fin 50)
        prevLowestReturnFare := some (JsNum.fin 40)
        faresOutbound := [], faresReturn := [] }
      (FetchOutcome.response ⟨[some JsNum.posInf, some (JsNum.fin 40)]⟩)
      (FetchOutcome.response ⟨[some (JsNum.fin 45), some (JsNum.fin 38)]⟩)
      (by decide) (by decide)).2.1⟩

/-- C5 counterexample: a reachable two-cycle run (first cycle's outbound
scrape returns Infinity and slips through the gate, setting the outbound
baseline to Infinity) whose second cycle has a return diff of 5 > 0 and yet
carries no annotation at all — the joint not-NaN guard suppresses the
return leg's annotation because the outbound diff is NaN, refuting the
per-leg classification as claimed. -/
theorem c5_counterexample_positive_diff_without_annotation :
    (runCycle ⟨false, none, none⟩
      ((runCycle ⟨false, none, none⟩ initialState
          (FetchOutcome.response ⟨[some JsNum.posInf, some (JsNum.fin 40)]⟩)).1)
      (FetchOutcome.response ⟨[some JsNum.posInf, some (JsNum.fin 35)]⟩)).2.returnFareDiff
      = JsNum.fin 5 ∧
    jsLt (JsNum.fin 0) (JsNum.fin 5) = true ∧
    (runCycle ⟨false, none, none⟩
      ((runCycle ⟨false, none, none⟩ initialState
          (FetchOutcome.response ⟨[some JsNum.posInf, some (JsNum.fin 40)]⟩)).1)
      (FetchOutcome.response ⟨[some JsNum.posInf, some (JsNum.fin 35)]⟩)).2.returnTag
      = DiffTag.empty := by
  decide

/-- C5 (amended): per leg, the diff is previous-baseline minus current
lowest (return diff fixed to 0 in one-way mode), and the annotations are
computed by the sign classification (down for positive — return leg only in
round-trip mode —, up for negative, no-change for zero) but only when
BOTH legs' diffs are non-NaN; when either diff is NaN (in particular on the
first cycle, where the undefined baseline makes it NaN) both annotations
are suppressed. -/
theorem c5_trend_classification (cfg : Config) (st : FareState) (f : FetchOutcome)
    (h : (runCycle cfg st f).2.completed = true) :
    (runCycle cfg st f).2.outboundFareDiff =
      jsSub (jsOfUndef st.prevLowestOutboundFare)
        (jsOfUndef (runCycle cfg st f).2.lowestOutboundFare) ∧
    (runCycle cfg st f).2.returnFareDiff =
      (if cfg.oneWay then JsNum.fin 0
       else jsSub (jsOfUndef st.prevLowestReturnFare)
         (jsOfUndef (runCycle cfg st f).2.lowestReturnFare)) ∧
    (runCycle cfg st f).2.outboundTag =
      (if diffsComputed (runCycle cfg st f).2.outboundFareDiff
            (runCycle cfg st f).2.returnFareDiff
       then outboundDiffTag (runCycle cfg st f).2.outboundFareDiff
       else DiffTag.empty) ∧
    (runCycle cfg st f).2.returnTag =
      (if diffsComputed (runCycle cfg st f).2.outboundFareDiff
            (runCycle cfg st f).2.returnFareDiff
       then returnDiffTag cfg.oneWay (runCycle cfg st f).2.returnFareDiff
       else DiffTag.empty) := by
  obtain ⟨st1, heq, e1, e2⟩ := runCycle_completed_eq cfg st f h
  rw [heq]
  rw [(reduceAndReport_diffs cfg st1).1, (reduceAndReport_diffs cfg st1).2,
      (reduceAndReport_lowest cfg st1).1, (reduceAndReport_lowest cfg st1).2,
      (reduceAndReport_tags cfg st1).1, (reduceAndReport_tags cfg st1).2]
  refine ⟨?_, ?_, rfl, rfl⟩
  · simp [outDiffOf, jsOfUndef, e1]
  · rcases how : cfg.oneWay <;> simp [retDiffOf, lowestRetOf, how, jsOfUndef, e2]

/-- C5 witness: a completed cycle against baseline 50/40 with new fares
45/40: outbound diff 5 is annotated "down", return diff 0 "no change". -/
theorem c5_witness :
    (runCycle ⟨false, none, none⟩
      { prevLowestOutboundFare := some (JsNum.fin 50)
        prevLowestReturnFare := some (JsNum.fin 40)
        faresOutbound := [], faresReturn := [] }
      (FetchOutcome.response ⟨[some (JsNum.fin 45), some (JsNum.fin 40)]⟩)).2.outboundFareDiff
      = JsNum.fin 5 ∧
    (runCycle ⟨false, none, none⟩
      { prevLowestOutboundFare := some (JsNum.fin 50)
        prevLowestReturnFare := some (JsNum.fin 40)
        faresOutbound := [], faresReturn := [] }
      (FetchOutcome.response ⟨[some (JsNum.fin 45), some (JsNum.fin 40)]⟩)).2.outboundTag
      = DiffTag.down ∧
    (runCycle ⟨false, none, none⟩
      { prevLowestOutboundFare := some (JsNum.fin 50)
        prevLowestReturnFare := some (JsNum.fin 40)
        faresOutbound := [], faresReturn := [] }
      (FetchOutcome.response ⟨[some (JsNum.fin 45), some (JsNum.fin 40)]⟩)).2.returnTag
      = DiffTag.noChange :=
  ⟨((c5_trend_classification ⟨false, none, none⟩
      { prevLowestOutboundFare := some (JsNum.fin 50)
        prevLowestReturnFare := some (JsNum.fin 40)
        faresOutbound := [], faresReturn := [] }
      (FetchOutcome.response ⟨[some (JsNum.fin 45), some (JsNum.fin 40)]⟩)
      (by decide)).1).trans (by decide),
   by decide, by decide⟩

/-- C6 counterexample: on the very first cycle an outbound amount of
Infinity makes the outbound diff NaN (undefined baseline), so the joint
guard never runs the finiteness check: the cycle is treated as VALID, the
baseline is corrupted to Infinity, and the alert even fires (the cheap
return leg meets the individual threshold) — refuting the claim for
first-cycle infinite scrapes. -/
theorem c6_counterexample_first_cycle_infinity_passes :
    (runCycle ⟨false, some (JsNum.fin 50), none⟩ initialState
      (FetchOutcome.response ⟨[some JsNum.posInf, some (JsNum.fin 10)]⟩)).2.faresAreValid
      = true ∧
    (runCycle ⟨false, some (JsNum.fin 50), none⟩ initialState
      (FetchOutcome.response ⟨[some JsNum.posInf, some (JsNum.fin 10)]⟩)).1.prevLowestOutboundFare
      = some JsNum.posInf ∧
    (runCycle ⟨false, some (JsNum.fin 50), none⟩ initialState
      (FetchOutcome.response ⟨[some JsNum.posInf, some (JsNum.fin 10)]⟩)).2.alertFired
      = true := by
  decide

/-- C6 (amended): in every completed cycle whose two fare diffs are both
numeric (non-NaN — in particular any cycle running against an established
finite baseline) and whose lowest fare on some leg is infinite (a simulated
bad scrape), the cycle is marked invalid, both baselines are left
unchanged, and no alert fires regardless of the configured thresholds. -/
theorem c6_infinite_fare_invalidates_cycle (cfg : Config) (st : FareState)
    (f : FetchOutcome)
    (h1 : (runCycle cfg st f).2.completed = true)
    (h2 : jsIsNaN (runCycle cfg st f).2.outboundFareDiff = false)
    (h3 : jsIsNaN (runCycle cfg st f).2.returnFareDiff = false)
    (h4 : (jsIsInfinite (jsOfUndef (runCycle cfg st f).2.lowestOutboundFare) ||
           jsIsInfinite (jsOfUndef (runCycle cfg st f).2.lowestReturnFare)) = true) :
    (runCycle cfg st f).2.faresAreValid = false ∧
    (runCycle cfg st f).1.prevLowestOutboundFare = st.prevLowestOutboundFare ∧
    (runCycle cfg st f).1.prevLowestReturnFare = st.prevLowestReturnFare ∧
    (runCycle cfg st f).2.alertFired = false := by
  obtain ⟨st1, heq, e1, e2⟩ := runCycle_completed_eq cfg st f h1
  rw [heq] at h2 h3 h4 ⊢
  rw [(reduceAndReport_diffs cfg st1).1] at h2
  rw [(reduceAndReport_diffs cfg st1).2] at h3
  rw [(reduceAndReport_lowest cfg st1).1, (reduceAndReport_lowest cfg st1).2] at h4
  simp only [jsOfUndef] at h4
  have hnf : (!jsIsFinite (outDiffOf st1) || !jsIsFinite (retDiffOf cfg st1)) = true := by
    rcases (show jsIsInfinite (lowestOutOf st1) = true ∨
        jsIsInfinite (lowestRetOf cfg st1) = true by simpa using h4) with hout | hret
    · have := jsSub_infinite (jsOfUndef st1.prevLowestOutboundFare) (lowestOutOf st1) hout
        (by simpa [outDiffOf] using h2)
      simp only [outDiffOf] at *
      simp [this]
    · rcases how : cfg.oneWay with _ | _
      · have h3' : jsIsNaN (jsSub (jsOfUndef st1.prevLowestReturnFare) (lowestRetOf cfg st1))
            = false := by simpa [retDiffOf, how] using h3
        have := jsSub_infinite (jsOfUndef st1.prevLowestReturnFare) (lowestRetOf cfg st1)
          hret h3'
        simp [retDiffOf, how, lowestRetOf] at this ⊢
        simp [this]
      · exact absurd hret (by simp [lowestRetOf, how, jsIsInfinite, jsIsFinite, jsIsNaN])
  have hvalid : faresValidCheck (outDiffOf st1) (retDiffOf cfg st1) = false := by
    simp [faresValidCheck, diffsComputed, h2, h3, hnf]
  refine ⟨?_, ?_, ?_, ?_⟩
  · rw [reduceAndReport_valid]; exact hvalid
  · rw [(reduceAndReport_prev cfg st1).1, hvalid]; simpa using e1
  · rw [(reduceAndReport_prev cfg st1).2, hvalid]; simpa using e2
  · rw [reduceAndReport_alertFired, hvalid]; simp

/-- C6 witness: against finite baseline 100/40, an outbound scrape of
Infinity invalidates the cycle, preserves the baseline and fires no alert
despite a generous individual threshold. -/
theorem c6_amended_witness :
    (runCycle ⟨false, some (JsNum.fin 500), none⟩
      { prevLowestOutboundFare := some (JsNum.fin 100)
        prevLowestReturnFare := some (JsNum.fin 40)
        faresOutbound := [], faresReturn := [] }
      (FetchOutcome.response ⟨[some JsNum.posInf, some (JsNum.fin 38)]⟩)).2.faresAreValid
      = false ∧
    (runCycle ⟨false, some (JsNum.fin 500), none⟩
      { prevLowestOutboundFare := some (JsNum.fin 100)
        prevLowestReturnFare := some (JsNum.fin 40)
        faresOutbound := [], faresReturn := [] }
      (FetchOutcome.response ⟨[some JsNum.posInf, some (JsNum.fin 38)]⟩)).1.prevLowestOutboundFare
      = some (JsNum.fin 100) ∧
    (runCycle ⟨false, some (JsNum.fin 500), none⟩
      { prevLowestOutboundFare := some (JsNum.fin 100)
        prevLowestReturnFare := some (JsNum.fin 40)
        faresOutbound := [], faresReturn := [] }
      (FetchOutcome.response ⟨[some JsNum.posInf, some (JsNum.fin 38)]⟩)).2.alertFired
      = false :=
  ⟨(c6_infinite_fare_invalidates_cycle ⟨false, some (JsNum.fin 500), none⟩
      { prevLowestOutboundFare := some (JsNum.fin 100)
        prevLowestReturnFare := some (JsNum.fin 40)
        faresOutbound := [], faresReturn := [] }
      (FetchOutcome.response ⟨[some JsNum.posInf, some (JsNum.fin 38)]⟩)
      (by decide) (by decide) (by decide) (by decide)).1,
   (c6_infinite_fare_invalidates_cycle ⟨false, some (JsNum.fin 500), none⟩
      { prevLowestOutboundFare := some (JsNum.fin 100)
        prevLowestReturnFare := some (JsNum.fin 40)
        faresOutbound := [], faresReturn := [] }
      (FetchOutcome.response ⟨[some JsNum.posInf, some (JsNum.fin 38)]⟩)
      (by decide) (by decide) (by decide) (by decide)).2.1,
   (c6_infinite_fare_invalidates_cycle ⟨false, some (JsNum.fin 500), none⟩
      { prevLowestOutboundFare := some (JsNum.fin 100)
        prevLowestReturnFare := some (JsNum.fin 40)
        faresOutbound := [], faresReturn := [] }
      (FetchOutcome.response ⟨[some JsNum.posInf, some (JsNum.fin 38)]⟩)
      (by decide) (by decide) (by decide) (by decide)).2.2.2⟩

/-- C7: a completed first cycle (no previous outbound baseline) is treated
as valid: both diff annotations are suppressed, deal evaluation still runs
on the current lowest fares, and the baseline is set from them. -/
theorem c7_first_cycle_treated_valid (cfg : Config) (st : FareState) (f : FetchOutcome)
    (h1 : st.prevLowestOutboundFare = none)
    (h2 : (runCycle cfg st f).2.completed = true) :
    (runCycle cfg st f).2.faresAreValid = true ∧
    (runCycle cfg st f).2.outboundTag = DiffTag.empty ∧
    (runCycle cfg st f).2.returnTag = DiffTag.empty ∧
    (runCycle cfg st f).1.prevLowestOutboundFare =
      (runCycle cfg st f).2.lowestOutboundFare ∧
    (runCycle cfg st f).1.prevLowestReturnFare =
      (runCycle cfg st f).2.lowestReturnFare ∧
    (runCycle cfg st f).2.alertFired =
      awesomeDealIsAwesome cfg.totalDealPrice cfg.individualDealPrice
        (jsOfUndef (runCycle cfg st f).2.lowestOutboundFare)
        (jsOfUndef (runCycle cfg st f).2.lowestReturnFare) := by
  obtain ⟨st1, heq, e1, e2⟩ := runCycle_completed_eq cfg st f h2
  have hnone : st1.prevLowestOutboundFare = none := e1.trans h1
  have hnan : jsIsNaN (outDiffOf st1) = true := by
    simp [outDiffOf, hnone, jsOfUndef, jsSub, jsIsNaN]
  have hdc : diffsComputed (outDiffOf st1) (retDiffOf cfg st1) = false := by
    simp [diffsComputed, hnan]
  have hvalid : faresValidCheck (outDiffOf st1) (retDiffOf cfg st1) = true := by
    simp [faresValidCheck, hdc]
  rw [heq]
  refine ⟨?_, ?_, ?_, ?_, ?_, ?_⟩
  · rw [reduceAndReport_valid]; exact hvalid
  · rw [(reduceAndReport_tags cfg st1).1, hdc]; simp
  · rw [(reduceAndReport_tags cfg st1).2, hdc]; simp
  · rw [(reduceAndReport_prev cfg st1).1, hvalid, (reduceAndReport_lowest cfg st1).1]
    simp
  · rw [(reduceAndReport_prev cfg st1).2, hvalid, (reduceAndReport_lowest cfg st1).2]
    simp
  · rw [reduceAndReport_alertFired, hvalid, (reduceAndReport_lowest cfg st1).1,
        (reduceAndReport_lowest cfg st1).2]
    simp [jsOfUndef]

/-- C7 witness: Scenario A — first cycle, outbound 50, return 40, total
threshold 100: the cycle is valid, no diff string is shown, and the alert
fires (50 + 40 = 90 <= 100). -/
theorem c7_witness :
    (runCycle ⟨false, none, some (JsNum.fin 100)⟩ initialState
      (FetchOutcome.response ⟨[some (JsNum.fin 50), some (JsNum.fin 40)]⟩)).2.faresAreValid
      = true ∧
    (runCycle ⟨false, none, some (JsNum.fin 100)⟩ initialState
      (FetchOutcome.response ⟨[some (JsNum.fin 50), some (JsNum.fin 40)]⟩)).2.outboundTag
      = DiffTag.empty ∧
    (runCycle ⟨false, none, some (JsNum.fin 100)⟩ initialState
      (FetchOutcome.response ⟨[some (JsNum.fin 50), some (JsNum.fin 40)]⟩)).2.alertFired
      = true :=
  ⟨(c7_first_cycle_treated_valid ⟨false, none, some (JsNum.fin 100)⟩ initialState
      (FetchOutcome.response ⟨[some (JsNum.fin 50), some (JsNum.fin 40)]⟩)
      rfl (by decide)).1,
   (c7_first_cycle_treated_valid ⟨false, none, some (JsNum.fin 100)⟩ initialState
      (FetchOutcome.response ⟨[some (JsNum.fin 50), some (JsNum.fin 40)]⟩)
      rfl (by decide)).2.1,
   by decide⟩

/-- C8: in one-way mode the return leg is fully skipped — no return amount
is ever pushed by extraction, the cycle's return fare is the constant 0,
the return diff is fixed to 0, no return fare is logged or plotted, and the
deal check uses 0 as the return contribution. -/
theorem c8_one_way_skips_return_leg (cfg : Config) (st : FareState) (f : FetchOutcome)
    (data : ResponseData)
    (h1 : cfg.oneWay = true)
    (h2 : (runCycle cfg st f).2.completed = true) :
    (runCycle cfg st f).2.lowestReturnFare = some (JsNum.fin 0) ∧
    (runCycle cfg st f).2.returnFareDiff = JsNum.fin 0 ∧
    (runCycle cfg st f).2.loggedReturn = none ∧
    (runCycle cfg st f).2.plottedReturn = none ∧
    (pushFares cfg st data).1.faresReturn = st.faresReturn ∧
    (runCycle cfg st f).2.alertFired =
      ((runCycle cfg st f).2.faresAreValid &&
       awesomeDealIsAwesome cfg.totalDealPrice cfg.individualDealPrice
         (jsOfUndef (runCycle cfg st f).2.lowestOutboundFare) (JsNum.fin 0)) := by
  obtain ⟨st1, heq, e1, e2⟩ := runCycle_completed_eq cfg st f h2
  rw [heq]
  refine ⟨?_, ?_, ?_, ?_, ?_, ?_⟩
  · rw [(reduceAndReport_lowest cfg st1).2]; simp [lowestRetOf, h1]
  · rw [(reduceAndReport_diffs cfg st1).2]; simp [retDiffOf, h1]
  · rw [(reduceAndReport_report cfg st1).2.1]; simp [h1]
  · rw [(reduceAndReport_report cfg st1).2.2.2]; simp [h1]
  · rcases h0 : tripAmount data 0 with _ | v <;> simp [pushFares, h0, h1]
  · rw [reduceAndReport_alertFired, reduceAndReport_valid,
        (reduceAndReport_lowest cfg st1).1]
    simp [jsOfUndef, lowestRetOf, h1]

/-- C8 witness: a one-way cycle with outbound 50 and total threshold 100:
the return side is absent everywhere and the alert fires with a 0 return
contribution (50 + 0 <= 100). -/
theorem c8_witness :
    (runCycle ⟨true, none, some (JsNum.fin 100)⟩ initialState
      (FetchOutcome.response ⟨[some (JsNum.fin 50)]⟩)).2.lowestReturnFare
      = some (JsNum.fin 0) ∧
    (runCycle ⟨true, none, some (JsNum.fin 100)⟩ initialState
      (FetchOutcome.response ⟨[some (JsNum.fin 50)]⟩)).2.loggedReturn = none ∧
    (runCycle ⟨true, none, some (JsNum.fin 100)⟩ initialState
      (FetchOutcome.response ⟨[some (JsNum.fin 50)]⟩)).2.alertFired = true :=
  ⟨(c8_one_way_skips_return_leg ⟨true, none, some (JsNum.fin 100)⟩ initialState
      (FetchOutcome.response ⟨[some (JsNum.fin 50)]⟩) ⟨[some (JsNum.fin 50)]⟩
      rfl (by decide)).1,
   (c8_one_way_skips_return_leg ⟨true, none, some (JsNum.fin 100)⟩ initialState
      (FetchOutcome.response ⟨[some (JsNum.fin 50)]⟩) ⟨[some (JsNum.fin 50)]⟩
      rfl (by decide)).2.2.1,
   by decide⟩

/-- C9: in one-way mode the cycle's return fare is the constant 0, so any
configured positive individual threshold is met by the return leg on every
valid cycle and the alert fires no matter how expensive the outbound is. -/
theorem c9_one_way_individual_threshold_always_fires (cfg : Config) (st : FareState)
    (f : FetchOutcome) (p : JsNum)
    (h1 : cfg.oneWay = true)
    (h2 : cfg.individualDealPrice = some p)
    (h3 : jsLt (JsNum.fin 0) p = true)
    (h4 : (runCycle cfg st f).2.faresAreValid = true) :
    (runCycle cfg st f).2.alertFired = true := by
  have hc := runCycle_valid_completed cfg st f h4
  obtain ⟨st1, heq, e1, e2⟩ := runCycle_completed_eq cfg st f hc
  rw [heq] at h4 ⊢
  rw [reduceAndReport_valid] at h4
  rw [reduceAndReport_alertFired, h4]
  simp [awesomeDealIsAwesome, h2, jsTruthy_of_pos p h3, lowestRetOf, h1, jsOfUndef,
        jsLe_zero_of_pos p h3]

/-- C9 witness: one-way, individual threshold 30, outbound 999 — the alert
fires on a valid cycle purely through the constant-0 return fare. -/
theorem c9_witness :
    (runCycle ⟨true, some (JsNum.fin 30), none⟩ initialState
      (FetchOutcome.response ⟨[some (JsNum.fin 999)]⟩)).2.alertFired = true :=
  c9_one_way_individual_threshold_always_fires ⟨true, some (JsNum.fin 30), none⟩
    initialState (FetchOutcome.response ⟨[some (JsNum.fin 999)]⟩) (JsNum.fin 30)
    rfl rfl (by decide) (by decide)

/-- C1: evaluation of the driver at a failing fetch.  A transport rejection
(and likewise an extraction throw on a missing fare path) lands in the
`.catch` handler: the error is logged and the baselines are untouched, but
`setTimeout` is never reached, so — contrary to the claim — no next cycle
is scheduled and polling stops. -/
theorem c1_failed_fetch_logs_but_never_reschedules :
    (runCycle ⟨false, none, none⟩ initialState FetchOutcome.transportError).2.errorLogged
        = true ∧
    (runCycle ⟨false, none, none⟩ initialState FetchOutcome.transportError).1
        = initialState ∧
    (runCycle ⟨false, none, none⟩ initialState FetchOutcome.transportError).2.scheduledNext
        = false ∧
    (runCycle ⟨false, none, none⟩ initialState
        (FetchOutcome.response ⟨[some (JsNum.fin 50), none]⟩)).2.errorLogged = true ∧
    (runCycle ⟨false, none, none⟩ initialState
        (FetchOutcome.response ⟨[some (JsNum.fin 50), none]⟩)).1.prevLowestOutboundFare
        = none ∧
    (runCycle ⟨false, none, none⟩ initialState
        (FetchOutcome.response ⟨[some (JsNum.fin 50), none]⟩)).1.prevLowestReturnFare
        = none ∧
    (runCycle ⟨false, none, none⟩ initialState
        (FetchOutcome.response ⟨[some (JsNum.fin 50), none]⟩)).2.scheduledNext = false := by
  decide
